import Mathlib

/-!
# Shallow embedding of the shop-backend service handlers

This file embeds the request handlers of the `shop-backend` repository in
Lean 4 and proves properties of them:

* the product-message validation of the SQS catalog-batch consumer
  (`parseProductData` in the catalog-batch-process handler),
* the validation of the direct `POST /products` Create handler
  (`isValidProductData` in `create-product/handler.ts`),
* the batch-processing loop of the SQS consumer (`handler` /
  `processRecord` / `sendProductCreatedNotification`),
* the two sequential `PutCommand` writes of the Create handler versus the
  single `TransactWriteCommand` of the consumer,
* the basic-auth token authorizer (`basic-authorizer` handler),
* the upload-URL staging handler (`import-products-file` handler),
* the S3-triggered row extractor (`import-file-parser` handler) together
  with the `prefix: "uploaded/"` event filter declared in
  `ImportServiceStack`.

JavaScript dynamic values are modelled by explicit inductive types; JS
numbers are rationals together with a separate `NaN` value; external
effects (DynamoDB writes, SNS publishes, SQS sends, S3 reads) are modelled
by explicit effect lists and failure oracles.
-/

deriving instance DecidableEq for Except

namespace ShopBackend

/-- A JavaScript number: either `NaN` or an actual (finite) numeric value,
modelled as a rational.  (Infinities do not arise on the paths modelled
here and are not represented.) -/
inductive JsNum where
  | nan : JsNum
  | val : ℚ → JsNum
deriving DecidableEq

/-- A JavaScript field value as it can appear in a parsed JSON payload
field (or be absent).  `boolv` stands for any value that is neither a
string, a number, `null`, nor `undefined` (for the handlers modelled here
only its `typeof`-class matters, never its content). -/
inductive FieldVal where
  | undefined : FieldVal
  | nullv : FieldVal
  | str : String → FieldVal
  | num : JsNum → FieldVal
  | boolv : Bool → FieldVal
deriving DecidableEq

/-- The four fields of a candidate product payload that the handlers
inspect (`title`, `description`, `price`, `count`).  A field that is not
present in the JSON object is `FieldVal.undefined`, matching JS property
access returning `undefined`. -/
structure Payload where
  title : FieldVal
  description : FieldVal
  price : FieldVal
  count : FieldVal
deriving DecidableEq

/-- The input of the validators: either a non-object JSON value
(`typeof data !== "object" || data === null`) or an object with the four
inspected fields. -/
inductive ProductInput where
  | notObject : ProductInput
  | obj : Payload → ProductInput
deriving DecidableEq

/-! ## String helpers

Kernel-reducible (structurally recursive) counterparts of the JS string
methods used by the handlers (`trim`, `startsWith`, `endsWith`,
`split`). -/

/-- JS `String.prototype.trim`: remove whitespace from both ends. -/
def strTrim (s : String) : String :=
  ⟨((s.toList.dropWhile Char.isWhitespace).reverse.dropWhile Char.isWhitespace).reverse⟩

/-- JS `String.prototype.endsWith`. -/
def strEnds (s suf : String) : Bool := suf.toList.isSuffixOf s.toList

/-- JS `String.prototype.startsWith`; also the semantics of an S3 event
notification key filter. -/
def strStarts (s p : String) : Bool := p.toList.isPrefixOf s.toList

/-! ## JS numeric-string parsing (`parseFloat`, `parseInt`) -/

/-- Leading decimal digits of a character list, together with the rest. -/
def takeDigits : List Char → List ℕ × List Char
  | [] => ([], [])
  | c :: cs =>
    if c.isDigit then
      let (ds, rest) := takeDigits cs
      ((c.toNat - 48) :: ds, rest)
    else ([], c :: cs)

/-- The natural number denoted by a list of decimal digits. -/
def digitsToNat (ds : List ℕ) : ℕ := ds.foldl (fun a d => 10 * a + d) 0

/-- Sign prefix of a JS numeric literal: whether it is negative, together
with the remaining characters. -/
def takeSign : List Char → Bool × List Char
  | '-' :: t => (true, t)
  | '+' :: t => (false, t)
  | t => (false, t)

/-- Negate a rational when the parsed sign was `-`. -/
def applySign (neg : Bool) (q : ℚ) : ℚ := if neg then -q else q

/-- JS `parseFloat` on the decimal forms that arise here: skip leading
whitespace, optional sign, then the longest prefix `digits [. digits]`;
`NaN` when no digit is found.  (Exponent forms and `Infinity` are not
modelled; no modelled input uses them.) -/
def jsParseFloat (s : String) : JsNum :=
  let cs := s.toList.dropWhile (fun c => c.isWhitespace)
  let (neg, cs) := takeSign cs
  let (ip, cs) := takeDigits cs
  match cs with
  | '.' :: t =>
    let (fp, _) := takeDigits t
    if ip.isEmpty && fp.isEmpty then JsNum.nan
    else
      JsNum.val (applySign neg
        (mkRat (Int.ofNat (digitsToNat ip * 10 ^ fp.length + digitsToNat fp)) (10 ^ fp.length)))
  | _ =>
    if ip.isEmpty then JsNum.nan
    else JsNum.val (applySign neg (mkRat (Int.ofNat (digitsToNat ip)) 1))

/-- JS `parseInt(s, 10)`: skip leading whitespace, optional sign, then the
longest prefix of decimal digits; `NaN` when no digit is found. -/
def jsParseInt (s : String) : JsNum :=
  let cs := s.toList.dropWhile (fun c => c.isWhitespace)
  let (neg, cs) := takeSign cs
  let (ds, _) := takeDigits cs
  if ds.isEmpty then JsNum.nan
  else JsNum.val (applySign neg (mkRat (Int.ofNat (digitsToNat ds)) 1))

/-! ## The consumer's `parseProductData` (catalog-batch-process handler) -/

/-- The validated product message produced by `parseProductData`: trimmed
title and description, the parsed price, and the count field (`none` when
the count was absent, `null`, or the empty string; otherwise the number
the count branch produced — note that a count supplied as a JS number is
stored without any check). -/
structure ProductMessage where
  title : String
  description : String
  price : ℚ
  count : Option JsNum
deriving DecidableEq

/-- Embedding of `parseProductData` from the catalog-batch-process
handler, following the source checks in order: object check; title must
be a string with non-empty trim; description must be a string; price must
be a number or a string run through `parseFloat`, then `isNaN(price) ||
price <= 0` rejects; count, when neither `undefined` nor `null` nor `""`,
is taken as-is when a number, run through `parseInt` with an
`isNaN || < 0` rejection when a string, and rejected otherwise.  The
returned record carries `title.trim()` and `description.trim()`. -/
def parseProductData (data : ProductInput) : Except String ProductMessage :=
  match data with
  | .notObject => .error "Product data must be an object"
  | .obj d =>
    match d.title with
    | .str titleStr =>
      if (strTrim titleStr).length = 0 then .error "Product title must be a non-empty string"
      else
        match d.description with
        | .str descStr =>
          let priceRes : Except String JsNum :=
            match d.price with
            | .num n => .ok n
            | .str s => .ok (jsParseFloat s)
            | _ => .error "Product price must be a number or numeric string"
          match priceRes with
          | .error e => .error e
          | .ok priceNum =>
            match priceNum with
            | .nan => .error "Product price must be a positive number"
            | .val price =>
              if price ≤ 0 then .error "Product price must be a positive number"
              else
                let countRes : Except String (Option JsNum) :=
                  if d.count = .undefined ∨ d.count = .nullv ∨ d.count = .str "" then .ok none
                  else
                    match d.count with
                    | .num n => .ok (some n)
                    | .str s =>
                      match jsParseInt s with
                      | .nan => .error "Product count must be a non-negative number"
                      | .val c =>
                        if c < 0 then .error "Product count must be a non-negative number"
                        else .ok (some (.val c))
                    | _ => .error "Product count must be a number or numeric string"
                match countRes with
                | .error e => .error e
                | .ok count =>
                  .ok { title := strTrim titleStr, description := strTrim descStr,
                        price := price, count := count }
        | _ => .error "Product description must be a string"
    | _ => .error "Product title must be a non-empty string"

/-- Embedding of `isValidProductData` from the `create-product` handler:
`title` a string with non-empty trim, `description` a string, `price` a
number with `price > 0` (so `NaN` fails the comparison).  The `count`
field is not inspected at all. -/
def isValidProductData (data : ProductInput) : Bool :=
  match data with
  | .notObject => false
  | .obj d =>
    (match d.title with
     | .str s => decide (0 < (strTrim s).length)
     | _ => false) &&
    (match d.description with
     | .str _ => true
     | _ => false) &&
    (match d.price with
     | .num (.val q) => decide (0 < q)
     | _ => false)

/-! ## Catalog store model

The `products` and `stocks` DynamoDB tables, as lists of rows.  Writes
append; the only operations performed by the modelled handlers are
`PutCommand` (one row) and `TransactWriteCommand` (two rows atomically),
modelled directly in each handler. -/

/-- A row of the `products` table. -/
structure ProductRow where
  id : String
  title : String
  description : String
  price : ℚ
deriving DecidableEq

/-- A row of the `stocks` table. -/
structure StockRow where
  product_id : String
  count : JsNum
deriving DecidableEq

/-- The two catalog tables. -/
structure DB where
  products : List ProductRow
  stocks : List StockRow
deriving DecidableEq

/-- The empty catalog. -/
def DB.empty : DB := ⟨[], []⟩

/-- Every product row is paired with a stock row for the same identifier,
in the same order: the creation invariant of §3 of the spec. -/
def DB.paired (db : DB) : Prop :=
  db.products.map (fun r => r.id) = db.stocks.map (fun s => s.product_id)

instance (db : DB) : Decidable db.paired := by
  unfold DB.paired; infer_instance

/-! ## The SQS catalog-batch consumer (`handler` / `processRecord`) -/

/-- The body of one SQS record: either a string that `JSON.parse` rejects,
or the parsed JSON value. -/
inductive SqsBody where
  | badJson : SqsBody
  | json : ProductInput → SqsBody
deriving DecidableEq

/-- The per-product summary accumulated by the consumer and passed to the
notifier (`{ id, title, price, count }`). -/
structure CreatedProduct where
  id : String
  title : String
  price : ℚ
  count : JsNum
deriving DecidableEq

/-- `typeof productData.count === "number" ? productData.count : 0` —
the stock count the consumer writes. -/
def countOrZero : Option JsNum → JsNum
  | some n => n
  | none => JsNum.val 0

/-- Whether the consumer's per-message parse/validation accepts a record
body (`JSON.parse` followed by `parseProductData`). -/
def messageAccepted (b : SqsBody) : Bool :=
  match b with
  | .badJson => false
  | .json d => (parseProductData d).toOption.isSome

/-- Embedding of `processRecord`: `JSON.parse` the body, validate with
`parseProductData`, then perform one `TransactWriteCommand` that puts the
product row and the stock row together.  `pid` is the `randomUUID()`
result for this record; `writeFails` tells whether the transact call
fails (in which case neither row is written and the error propagates). -/
def processRecord (pid : String) (writeFails : Bool) (db : DB) (body : SqsBody) :
    Except String (DB × CreatedProduct) :=
  match body with
  | .badJson => .error "Invalid JSON format"
  | .json data =>
    match parseProductData data with
    | .error e => .error e
    | .ok productData =>
      let count := countOrZero productData.count
      if writeFails then .error "TransactWrite failed"
      else
        .ok ({ products := db.products ++
                 [⟨pid, productData.title, productData.description, productData.price⟩],
               stocks := db.stocks ++ [⟨pid, count⟩] },
             ⟨pid, productData.title, productData.price, count⟩)

/-- One attempted SNS `PublishCommand` of the notifier: its subject line
together with the created products it lists.  (The plain-text message
body enumerates exactly the products of this list; its text formatting is
not modelled.) -/
structure Notification where
  subject : String
  products : List CreatedProduct
deriving DecidableEq

/-- The notifier's subject line:
`` `${products.length} New Product${products.length > 1 ? "s" : ""} Created` ``. -/
def notificationSubject (n : ℕ) : String :=
  toString n ++ " New Product" ++ (if 1 < n then "s" else "") ++ " Created"

/-- Embedding of `sendProductCreatedNotification`: when no topic is
configured the notifier is a no-op; otherwise exactly one publish is
attempted with the pluralized subject.  A publish failure is caught and
swallowed in the source, so the outcome does not depend on it. -/
def sendProductCreatedNotification (topicConfigured : Bool)
    (products : List CreatedProduct) : List Notification :=
  if topicConfigured then [⟨notificationSubject products.length, products⟩] else []

/-- The record loop of the consumer `handler`: process records in order,
accumulating DB writes and created products; the first failure stops the
loop and is rethrown (writes already made stay committed).  `genId i` is
the `randomUUID()` value for the `i`-th record and `writeFails i` tells
whether its transact call fails. -/
def runRecords (genId : ℕ → String) (writeFails : ℕ → Bool) :
    ℕ → DB → List CreatedProduct → List SqsBody →
    DB × List CreatedProduct × Option String
  | _, db, acc, [] => (db, acc, none)
  | i, db, acc, b :: rest =>
    match processRecord (genId i) (writeFails i) db b with
    | .error e => (db, acc, some e)
    | .ok (db2, p) => runRecords genId writeFails (i + 1) db2 (acc ++ [p]) rest

/-- The observable outcome of one consumer invocation: the catalog after
the invocation, the accumulated created-product summaries, the attempted
notifications, and whether the invocation was reported as failed (the
handler rethrew, with which error). -/
structure ConsumerOutcome where
  db : DB
  created : List CreatedProduct
  notifications : List Notification
  failed : Option String
deriving DecidableEq

/-- Embedding of the consumer `handler` (catalog-batch-process): run all
records in order starting from catalog `db0`; on a failure the invocation
is reported failed and no notification is attempted; otherwise, if at
least one product was created, the notifier runs once with the full
accumulated list. -/
def catalogBatchHandler (genId : ℕ → String) (writeFails : ℕ → Bool)
    (topicConfigured : Bool) (db0 : DB) (records : List SqsBody) : ConsumerOutcome :=
  match runRecords genId writeFails 0 db0 [] records with
  | (db, acc, some e) => ⟨db, acc, [], some e⟩
  | (db, acc, none) =>
    if 0 < acc.length then
      ⟨db, acc, sendProductCreatedNotification topicConfigured acc, none⟩
    else ⟨db, acc, [], none⟩

/-! ## The direct `POST /products` Create handler -/

/-- The observable outcome of the Create handler: HTTP status code, the
catalog after the call, and the response payload (product plus count) on
success. -/
structure CreateResponse where
  statusCode : ℕ
  db : DB
  body : Option (ProductRow × JsNum)
deriving DecidableEq

/-- Embedding of the `create-product` handler: validate with
`isValidProductData`; on success perform **two separate sequential
`PutCommand` calls** — first the product row, then the stock row.  `pid`
is the `randomUUID()` result; `putProductFails` / `putStockFails` tell
whether the respective call throws (a thrown call is caught by the
surrounding `try` and the handler answers 500; rows already put stay
written).  Title and description are stored exactly as supplied (no
trimming), and the stored count is
`typeof data.count === "number" ? data.count : 0`, with no validity check
on it. -/
def createProductHandler (pid : String) (putProductFails putStockFails : Bool)
    (db : DB) (data : ProductInput) : CreateResponse :=
  if !isValidProductData data then ⟨400, db, none⟩
  else
    match data with
    | .notObject => ⟨400, db, none⟩
    | .obj d =>
      let count : JsNum := match d.count with | .num n => n | _ => JsNum.val 0
      let titleStr : String := match d.title with | .str s => s | _ => ""
      let descStr : String := match d.description with | .str s => s | _ => ""
      let price : ℚ := match d.price with | .num (.val q) => q | _ => 0
      let product : ProductRow := ⟨pid, titleStr, descStr, price⟩
      if putProductFails then ⟨500, db, none⟩
      else
        let db1 : DB := { db with products := db.products ++ [product] }
        if putStockFails then ⟨500, db1, none⟩
        else ⟨201, { db1 with stocks := db1.stocks ++ [⟨pid, count⟩] }, some (product, count)⟩

/-! ## The basic-auth token authorizer -/

/-- JS `String.prototype.split` with a single-character separator, on
character lists; `acc` holds the current segment reversed. -/
def splitCharAux (sep : Char) : List Char → List Char → List (List Char)
  | [], acc => [acc.reverse]
  | c :: cs, acc =>
    if c = sep then acc.reverse :: splitCharAux sep cs []
    else splitCharAux sep cs (c :: acc)

/-- JS `String.prototype.split(sep)` for a one-character separator. -/
def jsSplit (sep : Char) (s : String) : List String :=
  (splitCharAux sep s.toList []).map (fun cs => ⟨cs⟩)

/-- The effect of an API Gateway authorizer policy statement. -/
inductive Effect where
  | allow : Effect
  | deny : Effect
deriving DecidableEq

/-- The policy document returned by `generatePolicy` (principal, effect,
resource). -/
structure AuthPolicy where
  principalId : String
  effect : Effect
  resource : String
deriving DecidableEq

/-- The regex match `authorizationToken.match(/^Basic (.+)$/)`: the
captured credential part when the token is of the form `Basic <rest>`
with non-empty `rest` containing no line terminator (JS `.` does not
match line terminators), otherwise `none`. -/
def basicTokenMatch (tok : String) : Option String :=
  if strStarts tok "Basic " then
    let rest : String := ⟨tok.toList.drop 6⟩
    if rest.length = 0 then none
    else if rest.toList.any (fun c => c = '\n' ∨ c = '\r') then none
    else some rest
  else none

/-- Embedding of the basic-authorizer `handler`.  `credStore` is the
process environment restricted to username lookups
(`process.env[username]`); `decodeBase64` is
`Buffer.from(·, "base64").toString("utf-8")`, a total function kept as a
parameter.  A thrown `Unauthorized` is `Except.error`; a returned policy
is `Except.ok`.  Falsy checks (`!authorizationToken`, `!username`,
`!password`, `!storedPassword`) treat the empty string like absence. -/
def authorizerHandler (credStore : String → Option String)
    (decodeBase64 : String → String) (authorizationToken : Option String)
    (methodArn : String) : Except String AuthPolicy :=
  match authorizationToken with
  | none => .error "Unauthorized"
  | some tok =>
    if tok = "" then .error "Unauthorized"
    else
      match basicTokenMatch tok with
      | none => .error "Unauthorized"
      | some encodedCredentials =>
        let decodedCredentials := decodeBase64 encodedCredentials
        match jsSplit ':' decodedCredentials with
        | [] => .error "Unauthorized"
        | [_] => .error "Unauthorized"
        | username :: password :: _ =>
          if username = "" ∨ password = "" then .error "Unauthorized"
          else
            match credStore username with
            | none => .ok ⟨username, .deny, methodArn⟩
            | some storedPassword =>
              if storedPassword = "" then .ok ⟨username, .deny, methodArn⟩
              else if storedPassword ≠ password then .ok ⟨username, .deny, methodArn⟩
              else .ok ⟨username, .allow, methodArn⟩

/-! ## The upload-URL staging handler (`import-products-file`) -/

/-- The observable outcome of the staging handler: HTTP status, error
message, the storage key returned on success, and how many calls were
made to the storage service (`getSignedUrl`). -/
structure ImportUrlResponse where
  statusCode : ℕ
  message : Option String
  key : Option String
  storageCalls : ℕ
deriving DecidableEq

/-- Embedding of the `import-products-file` handler: reject a missing or
empty `name` query parameter (falsy check) and a name not ending in
`.csv`, both before any storage call; otherwise the key is
`` `uploaded/${fileName}` `` and one `getSignedUrl` call is made
(`signFails` tells whether that call throws, answered with 500). -/
def importProductsFileHandler (signFails : Bool) (name : Option String) :
    ImportUrlResponse :=
  match name with
  | none => ⟨400, some "Missing required query parameter: name", none, 0⟩
  | some fileName =>
    if fileName = "" then ⟨400, some "Missing required query parameter: name", none, 0⟩
    else if !strEnds fileName ".csv" then ⟨400, some "File must be a CSV file", none, 0⟩
    else if signFails then ⟨500, some "Internal server error", none, 1⟩
    else ⟨200, none, some ("uploaded/" ++ fileName), 1⟩

/-! ## The row extractor (`import-file-parser`) and its S3 trigger -/

/-- The externally visible effects of the extractor on one S3 event
record: the object keys it read from the bucket and the serialized row
messages it submitted to the queue. -/
structure ExtractorEffects where
  objectReads : List String
  queueMessages : List String
deriving DecidableEq

/-- No reads, no messages. -/
def ExtractorEffects.none : ExtractorEffects := ⟨[], []⟩

/-- Embedding of the per-record body of the `import-file-parser` handler:
a key not ending in `.csv` is skipped (`continue`) with no read and no
message; otherwise the object is read and each parsed CSV row is
serialized and sent to the queue.  `store key` gives the serialized rows
of the object at `key` (CSV parsing of the streamed object is abstracted
to this lookup; per-row send failures are logged and skipped in the
source and do not change which sends are attempted). -/
def importFileParserRecord (store : String → List String) (key : String) :
    ExtractorEffects :=
  if !strEnds key ".csv" then ExtractorEffects.none
  else ⟨[key], store key⟩

/-- The S3 event filter declared in `ImportServiceStack`:
`bucket.addEventNotification(OBJECT_CREATED, …, { prefix: "uploaded/" })`.
Only keys passing this filter are ever delivered to the handler. -/
def uploadedKeyFilter (key : String) : Bool := strStarts key "uploaded/"

/-- The deployed pipeline for one created object: the stack's event
filter decides delivery, then the handler body runs on the delivered
record. -/
def importPipelineRecord (store : String → List String) (key : String) :
    ExtractorEffects :=
  if uploadedKeyFilter key then importFileParserRecord store key
  else ExtractorEffects.none

/-! # Theorems -/

/-- C7: an upload-URL request whose file name is missing or does not end
in `.csv` is answered 400 with no storage call; for a name ending in
`.csv` (and a succeeding signing call) the returned key is exactly
`uploaded/<name>`. -/
theorem importProductsFile_spec (signFails : Bool) :
    (∀ name : Option String,
        (∀ s, name = some s → strEnds s ".csv" = false) →
        (importProductsFileHandler signFails name).statusCode = 400 ∧
        (importProductsFileHandler signFails name).storageCalls = 0) ∧
    (∀ s : String, strEnds s ".csv" = true → signFails = false →
        (importProductsFileHandler signFails (some s)).key = some ("uploaded/" ++ s) ∧
        (importProductsFileHandler signFails (some s)).statusCode = 200) := by
  constructor
  · intro name h
    cases name with
    | none => simp [importProductsFileHandler]
    | some s =>
      have hs := h s rfl
      by_cases he : s = ""
      · subst he; simp [importProductsFileHandler]
      · simp [importProductsFileHandler, he, hs]
  · intro s hcsv hsf
    subst hsf
    have hne : ¬ s = "" := by
      intro h0
      subst h0
      exact absurd hcsv (by decide)
    simp [importProductsFileHandler, hne, hcsv]

/-- Closed instance of `importProductsFile_spec`: `notes.txt` is rejected
with 400 and no storage call, and `products.csv` yields the key
`uploaded/products.csv`. -/
theorem importProductsFile_spec_witness :
    ((importProductsFileHandler false (some "notes.txt")).statusCode = 400 ∧
      (importProductsFileHandler false (some "notes.txt")).storageCalls = 0) ∧
    (importProductsFileHandler false (some "products.csv")).key =
      some ("uploaded/" ++ "products.csv") :=
  ⟨(importProductsFile_spec false).1 (some "notes.txt")
      (fun s hs => by cases hs; decide),
   ((importProductsFile_spec false).2 "products.csv" (by decide) rfl).1⟩

/-- C8: for every storage event record, the deployed import pipeline
(stack prefix filter plus handler extension check) performs no object
read and emits no queue message when the key is outside the `uploaded/`
prefix or does not end in `.csv`. -/
theorem importPipeline_skips (store : String → List String) (key : String)
    (h : strStarts key "uploaded/" = false ∨ strEnds key ".csv" = false) :
    importPipelineRecord store key = ExtractorEffects.none := by
  rcases h with h | h
  · simp [importPipelineRecord, uploadedKeyFilter, h]
  · by_cases hp : uploadedKeyFilter key <;>
      simp [importPipelineRecord, importFileParserRecord, h, hp]

/-- Closed instance of `importPipeline_skips`: an object created outside
the `uploaded/` prefix triggers no read and no queue message. -/
theorem importPipeline_skips_witness :
    importPipelineRecord (fun _ => ["row"]) "backup/products.csv" =
      ExtractorEffects.none :=
  importPipeline_skips (fun _ => ["row"]) "backup/products.csv" (Or.inl (by decide))

/-- C4 counterexample: the payload
`{title: "Widget", description: "desc", price: "5"}` (price as a numeric
string) is accepted by the queue consumer's `parseProductData` but
rejected by the Create handler's `isValidProductData`, so the two
validations are not equivalent. -/
theorem createValidation_counterexample :
    (parseProductData (.obj ⟨.str "Widget", .str "desc", .str "5", .undefined⟩)).toOption.isSome
        = true ∧
    isValidProductData (.obj ⟨.str "Widget", .str "desc", .str "5", .undefined⟩) = false := by
  decide

/-- C4 amended: restricted to payloads whose `price` field is given as a
JS number and whose `count` field is absent, the Create handler accepts a
payload exactly when the queue consumer's validation accepts it.  (In
general the equivalence fails: numeric-string prices are accepted only by
the consumer, and count fields are checked only by the consumer.) -/
theorem createValidation_amended (p : Payload) (n : JsNum)
    (hprice : p.price = .num n) (hcount : p.count = .undefined) :
    isValidProductData (.obj p) = true ↔
      (parseProductData (.obj p)).toOption.isSome = true := by
  rcases p with ⟨t, d, pr, c⟩
  dsimp only at hprice hcount
  subst hprice
  subst hcount
  cases t with
  | undefined => simp [isValidProductData, parseProductData, Except.toOption]
  | nullv => simp [isValidProductData, parseProductData, Except.toOption]
  | num m => simp [isValidProductData, parseProductData, Except.toOption]
  | boolv b => simp [isValidProductData, parseProductData, Except.toOption]
  | str s =>
    by_cases h1 : (strTrim s).length = 0
    · simp [isValidProductData, parseProductData, Except.toOption, h1]
    · cases d with
      | undefined => simp [isValidProductData, parseProductData, Except.toOption, h1]
      | nullv => simp [isValidProductData, parseProductData, Except.toOption, h1]
      | num m => simp [isValidProductData, parseProductData, Except.toOption, h1]
      | boolv b => simp [isValidProductData, parseProductData, Except.toOption, h1]
      | str ds =>
        cases n with
        | nan => simp [isValidProductData, parseProductData, Except.toOption, h1]
        | val q =>
          by_cases hq : q ≤ 0
          · simp [isValidProductData, parseProductData, Except.toOption, h1, hq, not_lt.mpr hq]
          · simp [isValidProductData, parseProductData, Except.toOption, h1, hq,
              lt_of_not_le hq, Nat.pos_of_ne_zero h1]

/-- Closed instance of `createValidation_amended` at a concrete payload
with a numeric price and no count. -/
theorem createValidation_amended_witness :
    isValidProductData (.obj ⟨.str "Widget", .str "desc", .num (.val 10), .undefined⟩) = true ↔
      (parseProductData
          (.obj ⟨.str "Widget", .str "desc", .num (.val 10), .undefined⟩)).toOption.isSome = true :=
  createValidation_amended ⟨.str "Widget", .str "desc", .num (.val 10), .undefined⟩
    (.val 10) rfl rfl

/-- C5 counterexample: a present, negative count supplied as a JS number
(`count: -5`) is accepted unchanged by `parseProductData` — the
`isNaN`/negativity check runs only in the numeric-string branch — so the
consumer does not reject every negative count. -/
theorem countValidation_counterexample :
    parseProductData (.obj ⟨.str "Widget", .str "desc", .num (.val 10), .num (.val (-5))⟩) =
      .ok ⟨"Widget", "desc", 10, some (.val (-5))⟩ ∧ (-5 : ℚ) < 0 := by
  decide

/-- C5 amended: the consumer rejects a non-numeric or negative count only
when the count is given as a string; a count supplied as a JS number is
accepted unchanged (negative or `NaN` included); a count that is neither
a number nor a string (and not absent) is rejected; an absent count is
accepted and the written stock count defaults to zero. -/
theorem countValidation_amended :
    (∀ p : Payload, ∀ s : String, p.count = .str s → s ≠ "" →
        (match jsParseInt s with | .nan => True | .val c => c < 0) →
        (parseProductData (.obj p)).toOption.isSome = false) ∧
    (∀ t d : String, ∀ q : ℚ, ∀ n : JsNum, 0 < (strTrim t).length → 0 < q →
        parseProductData (.obj ⟨.str t, .str d, .num (.val q), .num n⟩) =
          .ok ⟨strTrim t, strTrim d, q, some n⟩) ∧
    (∀ p : Payload, ∀ b : Bool, p.count = .boolv b →
        (parseProductData (.obj p)).toOption.isSome = false) ∧
    (∀ t d : String, ∀ q : ℚ, 0 < (strTrim t).length → 0 < q →
        parseProductData (.obj ⟨.str t, .str d, .num (.val q), .undefined⟩) =
          .ok ⟨strTrim t, strTrim d, q, none⟩ ∧ countOrZero none = JsNum.val 0) := by
  refine ⟨?_, ?_, ?_, ?_⟩
  · intro p s hc hs hbad
    rcases p with ⟨t, d, pr, c⟩
    dsimp only at hc
    subst hc
    cases t with
    | str ts =>
      by_cases h1 : (strTrim ts).length = 0
      · simp [parseProductData, Except.toOption, h1]
      · cases d with
        | str ds =>
          have hcond : ¬ (FieldVal.str s = .undefined ∨ FieldVal.str s = .nullv ∨
              FieldVal.str s = .str "") := by simp [hs]
          cases pr with
          | num m =>
            cases m with
            | nan => simp [parseProductData, Except.toOption, h1]
            | val q =>
              by_cases hq : q ≤ 0
              · simp [parseProductData, Except.toOption, h1, hq]
              · cases hj : jsParseInt s with
                | nan => simp [parseProductData, Except.toOption, h1, hq, hcond, hj, hs]
                | val cv =>
                  rw [hj] at hbad
                  simp only at hbad
                  simp [parseProductData, Except.toOption, h1, hq, hcond, hj, hbad, hs]
          | str ps =>
            cases hj2 : jsParseFloat ps with
            | nan => simp [parseProductData, Except.toOption, h1, hj2]
            | val q =>
              by_cases hq : q ≤ 0
              · simp [parseProductData, Except.toOption, h1, hj2, hq]
              · cases hj : jsParseInt s with
                | nan => simp [parseProductData, Except.toOption, h1, hq, hcond, hj, hj2, hs]
                | val cv =>
                  rw [hj] at hbad
                  simp only at hbad
                  simp [parseProductData, Except.toOption, h1, hq, hcond, hj, hj2, hbad, hs]
          | undefined => simp [parseProductData, Except.toOption, h1]
          | nullv => simp [parseProductData, Except.toOption, h1]
          | boolv b => simp [parseProductData, Except.toOption, h1]
        | undefined => simp [parseProductData, Except.toOption, h1]
        | nullv => simp [parseProductData, Except.toOption, h1]
        | num m => simp [parseProductData, Except.toOption, h1]
        | boolv b => simp [parseProductData, Except.toOption, h1]
    | undefined => simp [parseProductData, Except.toOption]
    | nullv => simp [parseProductData, Except.toOption]
    | num m => simp [parseProductData, Except.toOption]
    | boolv b => simp [parseProductData, Except.toOption]
  · intro t d q n h1 hq
    simp [parseProductData, Except.toOption, Nat.pos_iff_ne_zero.mp h1, not_le.mpr hq]
  · intro p b hc
    rcases p with ⟨t, d, pr, c⟩
    dsimp only at hc
    subst hc
    cases t with
    | str ts =>
      by_cases h1 : (strTrim ts).length = 0
      · simp [parseProductData, Except.toOption, h1]
      · cases d with
        | str ds =>
          cases pr with
          | num m =>
            cases m with
            | nan => simp [parseProductData, Except.toOption, h1]
            | val q =>
              by_cases hq : q ≤ 0
              · simp [parseProductData, Except.toOption, h1, hq]
              · simp [parseProductData, Except.toOption, h1, hq]
          | str ps =>
            cases hj2 : jsParseFloat ps with
            | nan => simp [parseProductData, Except.toOption, h1, hj2]
            | val q =>
              by_cases hq : q ≤ 0
              · simp [parseProductData, Except.toOption, h1, hj2, hq]
              · simp [parseProductData, Except.toOption, h1, hj2, hq]
          | undefined => simp [parseProductData, Except.toOption, h1]
          | nullv => simp [parseProductData, Except.toOption, h1]
          | boolv b2 => simp [parseProductData, Except.toOption, h1]
        | undefined => simp [parseProductData, Except.toOption, h1]
        | nullv => simp [parseProductData, Except.toOption, h1]
        | num m => simp [parseProductData, Except.toOption, h1]
        | boolv b2 => simp [parseProductData, Except.toOption, h1]
    | undefined => simp [parseProductData, Except.toOption]
    | nullv => simp [parseProductData, Except.toOption]
    | num m => simp [parseProductData, Except.toOption]
    | boolv b2 => simp [parseProductData, Except.toOption]
  · intro t d q h1 hq
    refine ⟨?_, rfl⟩
    simp [parseProductData, Except.toOption, Nat.pos_iff_ne_zero.mp h1, not_le.mpr hq]

/-- Closed instance of `countValidation_amended`: the string count `"-3"`
is rejected, the number count `-5` is accepted, the boolean count is
rejected, and the absent count defaults to zero. -/
theorem countValidation_amended_witness :
    (parseProductData (.obj ⟨.str "W", .str "d", .num (.val 10), .str "-3"⟩)).toOption.isSome
        = false ∧
    parseProductData (.obj ⟨.str "W", .str "d", .num (.val 10), .num (.val (-5))⟩) =
      .ok ⟨strTrim "W", strTrim "d", 10, some (.val (-5))⟩ ∧
    (parseProductData (.obj ⟨.str "W", .str "d", .num (.val 10), .boolv true⟩)).toOption.isSome
        = false ∧
    parseProductData (.obj ⟨.str "W", .str "d", .num (.val 10), .undefined⟩) =
      .ok ⟨strTrim "W", strTrim "d", 10, none⟩ :=
  ⟨countValidation_amended.1 ⟨.str "W", .str "d", .num (.val 10), .str "-3"⟩ "-3" rfl
      (by decide) (show ((-3 : ℚ) < 0) by decide),
   countValidation_amended.2.1 "W" "d" 10 (.val (-5)) (by decide) (by decide),
   countValidation_amended.2.2.1 ⟨.str "W", .str "d", .num (.val 10), .boolv true⟩ true rfl,
   (countValidation_amended.2.2.2 "W" "d" 10 (by decide) (by decide)).1⟩

/-- C1 counterexample: in the direct Create handler the product and stock
rows are written by two separate sequential puts, so when the first put
succeeds and the second fails, a product row is committed with no
matching stock row (and the handler answers 500). -/
theorem atomicCreation_counterexample :
    (createProductHandler "p1" false true DB.empty
        (.obj ⟨.str "Widget", .str "A widget", .num (.val 10), .undefined⟩)).db.products =
      [⟨"p1", "Widget", "A widget", 10⟩] ∧
    (createProductHandler "p1" false true DB.empty
        (.obj ⟨.str "Widget", .str "A widget", .num (.val 10), .undefined⟩)).db.stocks = [] ∧
    (createProductHandler "p1" false true DB.empty
        (.obj ⟨.str "Widget", .str "A widget", .num (.val 10), .undefined⟩)).statusCode = 500 := by
  decide

/-- A successful `processRecord` preserves the product/stock pairing
invariant: its single transactional write appends one product row and one
stock row with the same identifier. -/
theorem processRecord_paired (pid : String) (wf : Bool) (db db2 : DB) (b : SqsBody)
    (p : CreatedProduct) (hok : processRecord pid wf db b = .ok (db2, p))
    (h : db.paired) : db2.paired := by
  cases b with
  | badJson => simp [processRecord] at hok
  | json d =>
    cases hp : parseProductData d with
    | error e => simp [processRecord, hp] at hok
    | ok m =>
      cases wf with
      | true => simp [processRecord, hp] at hok
      | false =>
        simp only [processRecord, hp, Bool.false_eq_true, if_false, Except.ok.injEq,
          Prod.mk.injEq] at hok
        obtain ⟨hdb, -⟩ := hok
        subst hdb
        simp only [DB.paired, List.map_append, List.map_cons, List.map_nil] at h ⊢
        rw [h]

/-- The consumer's record loop preserves the pairing invariant, for every
failure oracle (a failed transact write changes nothing; a successful one
appends a matched pair). -/
theorem runRecords_paired (genId : ℕ → String) (wf : ℕ → Bool) :
    ∀ (records : List SqsBody) (i : ℕ) (db : DB) (acc : List CreatedProduct),
      db.paired → ((runRecords genId wf i db acc records).1).paired := by
  intro records
  induction records with
  | nil => intro i db acc h; simpa [runRecords] using h
  | cons b rest ih =>
    intro i db acc h
    simp only [runRecords]
    cases hp : processRecord (genId i) (wf i) db b with
    | error e => simpa using h
    | ok pr =>
      obtain ⟨db2, p⟩ := pr
      exact ih (i + 1) db2 (acc ++ [p]) (processRecord_paired _ _ _ _ _ _ hp h)

/-- C1 amended: the queue consumer's creations are atomic — across a whole
invocation, under any write-failure pattern, the catalog keeps its
product rows and stock rows exactly paired — and the direct Create
handler maintains the pairing only when its second (stock) put does not
fail; `atomicCreation_counterexample` shows the pairing is lost when it
does. -/
theorem atomicCreation_amended :
    (∀ (genId : ℕ → String) (writeFails : ℕ → Bool) (topicConfigured : Bool)
        (db0 : DB) (records : List SqsBody), db0.paired →
        ((catalogBatchHandler genId writeFails topicConfigured db0 records).db).paired) ∧
    (∀ (pid : String) (putProductFails : Bool) (db : DB) (data : ProductInput),
        db.paired →
        ((createProductHandler pid putProductFails false db data).db).paired) := by
  constructor
  · intro genId writeFails topicConfigured db0 records h
    have hr := runRecords_paired genId writeFails records 0 db0 [] h
    rcases heq : runRecords genId writeFails 0 db0 [] records with ⟨db, acc, err⟩
    rw [heq] at hr
    cases err with
    | none =>
      by_cases hacc : 0 < acc.length
      · simpa [catalogBatchHandler, heq, hacc] using hr
      · simpa [catalogBatchHandler, heq, hacc] using hr
    | some e => simpa [catalogBatchHandler, heq] using hr
  · intro pid putProductFails db data h
    cases data with
    | notObject => simpa [createProductHandler] using h
    | obj d =>
      by_cases hv : isValidProductData (.obj d)
      · cases putProductFails with
        | true => simpa [createProductHandler, hv] using h
        | false =>
          simp only [createProductHandler, hv, Bool.not_true, Bool.false_eq_true, if_false]
          simp only [DB.paired, List.map_append, List.map_cons, List.map_nil] at h ⊢
          rw [h]
      · simpa [createProductHandler, hv] using h

/-- Closed instance of `atomicCreation_amended`: one consumer invocation
and one fully successful Create call, both starting from the empty
catalog, keep the pairing invariant. -/
theorem atomicCreation_amended_witness :
    ((catalogBatchHandler (fun n => toString n) (fun _ => false) true DB.empty
        [.json (.obj ⟨.str "A", .str "a", .num (.val 3), .undefined⟩)]).db).paired ∧
    ((createProductHandler "p1" false false DB.empty
        (.obj ⟨.str "A", .str "a", .num (.val 3), .undefined⟩)).db).paired :=
  ⟨atomicCreation_amended.1 (fun n => toString n) (fun _ => false) true DB.empty
      [.json (.obj ⟨.str "A", .str "a", .num (.val 3), .undefined⟩)] (by decide),
   atomicCreation_amended.2 "p1" false DB.empty
      (.obj ⟨.str "A", .str "a", .num (.val 3), .undefined⟩) (by decide)⟩

/-- A rejected message makes `processRecord` raise (for any write-failure
setting): bad JSON or a failed validation yields an error before any
write. -/
theorem processRecord_not_accepted (pid : String) (wf : Bool) (db : DB) (b : SqsBody)
    (h : messageAccepted b = false) : ∃ e, processRecord pid wf db b = .error e := by
  cases b with
  | badJson => exact ⟨"Invalid JSON format", rfl⟩
  | json d =>
    cases hp : parseProductData d with
    | error e => exact ⟨e, by simp [processRecord, hp]⟩
    | ok m => simp [messageAccepted, hp, Except.toOption] at h

/-- An accepted message with a succeeding write commits exactly one
product row and one stock row. -/
theorem processRecord_accepted (pid : String) (db : DB) (b : SqsBody)
    (h : messageAccepted b = true) :
    ∃ db2 p, processRecord pid false db b = .ok (db2, p) ∧
      db2.products.length = db.products.length + 1 ∧
      db2.stocks.length = db.stocks.length + 1 := by
  cases b with
  | badJson => simp [messageAccepted] at h
  | json d =>
    cases hp : parseProductData d with
    | error e => simp [messageAccepted, hp, Except.toOption] at h
    | ok m =>
      refine ⟨⟨db.products ++ [⟨pid, m.title, m.description, m.price⟩],
              db.stocks ++ [⟨pid, countOrZero m.count⟩]⟩,
             ⟨pid, m.title, m.price, countOrZero m.count⟩, ?_, by simp, by simp⟩
      simp [processRecord, hp]

/-- Running the loop over a fully accepted block of messages (with
succeeding writes) commits one pair per message and continues with the
rest of the batch. -/
theorem runRecords_all_accepted (genId : ℕ → String) :
    ∀ (pre : List SqsBody) (rest : List SqsBody) (i : ℕ) (db : DB)
      (acc : List CreatedProduct), (∀ b ∈ pre, messageAccepted b = true) →
      ∃ db' acc',
        runRecords genId (fun _ => false) i db acc (pre ++ rest) =
          runRecords genId (fun _ => false) (i + pre.length) db' acc' rest ∧
        db'.products.length = db.products.length + pre.length ∧
        db'.stocks.length = db.stocks.length + pre.length ∧
        acc'.length = acc.length + pre.length := by
  intro pre
  induction pre with
  | nil =>
    intro rest i db acc h
    exact ⟨db, acc, by simp, by simp, by simp, by simp⟩
  | cons b pre ih =>
    intro rest i db acc h
    obtain ⟨db2, p, hok, hl1, hl2⟩ := processRecord_accepted (genId i) db b (h b (by simp))
    obtain ⟨db', acc', heq, h1, h2, h3⟩ :=
      ih rest (i + 1) db2 (acc ++ [p]) (fun x hx => h x (by simp [hx]))
    refine ⟨db', acc', ?_,
      by rw [h1, hl1]; simp only [List.length_cons]; omega,
      by rw [h2, hl2]; simp only [List.length_cons]; omega,
      by rw [h3]; simp only [List.length_append, List.length_cons, List.length_nil]; omega⟩
    have hidx : i + 1 + pre.length = i + (b :: pre).length := by
      simp only [List.length_cons]; omega
    rw [List.cons_append]
    simp only [runRecords, hok]
    rw [heq, hidx]

/-- C2: a delivery batch with one rejected message among accepted ones
commits exactly the pairs of the messages before the rejected one (the
rejected one and everything after it are not attempted), the invocation
is reported failed, and no notification is attempted. -/
theorem batchFailFast (genId : ℕ → String) (topicConfigured : Bool) (db0 : DB)
    (pre : List SqsBody) (bad : SqsBody) (rest : List SqsBody)
    (hpre : ∀ b ∈ pre, messageAccepted b = true)
    (hbad : messageAccepted bad = false) :
    (catalogBatchHandler genId (fun _ => false) topicConfigured db0
        (pre ++ bad :: rest)).failed.isSome = true ∧
    (catalogBatchHandler genId (fun _ => false) topicConfigured db0
        (pre ++ bad :: rest)).db.products.length = db0.products.length + pre.length ∧
    (catalogBatchHandler genId (fun _ => false) topicConfigured db0
        (pre ++ bad :: rest)).db.stocks.length = db0.stocks.length + pre.length ∧
    (catalogBatchHandler genId (fun _ => false) topicConfigured db0
        (pre ++ bad :: rest)).created.length = pre.length ∧
    (catalogBatchHandler genId (fun _ => false) topicConfigured db0
        (pre ++ bad :: rest)).notifications = [] := by
  obtain ⟨db', acc', heq, h1, h2, h3⟩ :=
    runRecords_all_accepted genId pre (bad :: rest) 0 db0 [] hpre
  obtain ⟨e, he⟩ := processRecord_not_accepted (genId (0 + pre.length)) false db' bad hbad
  have hrun : runRecords genId (fun _ => false) 0 db0 [] (pre ++ bad :: rest) =
      (db', acc', some e) := by
    rw [heq]
    simp only [runRecords, he]
  simp [catalogBatchHandler, hrun, h1, h2, h3]

/-- Closed instance of `batchFailFast`: one accepted message followed by a
bad-JSON message and one further message — the invocation fails and no
notification is attempted. -/
theorem batchFailFast_witness :
    (catalogBatchHandler (fun n => toString n) (fun _ => false) true DB.empty
        ([SqsBody.json (.obj ⟨.str "A", .str "a", .num (.val 3), .undefined⟩)] ++
          SqsBody.badJson ::
            [SqsBody.json (.obj ⟨.str "B", .str "b", .num (.val 4), .undefined⟩)])).failed.isSome
        = true ∧
    (catalogBatchHandler (fun n => toString n) (fun _ => false) true DB.empty
        ([SqsBody.json (.obj ⟨.str "A", .str "a", .num (.val 3), .undefined⟩)] ++
          SqsBody.badJson ::
            [SqsBody.json (.obj ⟨.str "B", .str "b", .num (.val 4), .undefined⟩)])).notifications
        = [] :=
  ⟨(batchFailFast (fun n => toString n) true DB.empty
      [SqsBody.json (.obj ⟨.str "A", .str "a", .num (.val 3), .undefined⟩)]
      SqsBody.badJson
      [SqsBody.json (.obj ⟨.str "B", .str "b", .num (.val 4), .undefined⟩)]
      (by decide) (by decide)).1,
   (batchFailFast (fun n => toString n) true DB.empty
      [SqsBody.json (.obj ⟨.str "A", .str "a", .num (.val 3), .undefined⟩)]
      SqsBody.badJson
      [SqsBody.json (.obj ⟨.str "B", .str "b", .num (.val 4), .undefined⟩)]
      (by decide) (by decide)).2.2.2.2⟩

/-- C3: a batch of N ≥ 1 accepted messages (with a configured topic and
succeeding writes) commits exactly N product+stock pairs, reports
success, and attempts exactly one notification listing all N created
products, with the subject `1 New Product Created` when N = 1 and
`<N> New Products Created` when N > 1. -/
theorem batchSuccess (genId : ℕ → String) (db0 : DB) (records : List SqsBody)
    (hall : ∀ b ∈ records, messageAccepted b = true) (hne : records ≠ []) :
    (catalogBatchHandler genId (fun _ => false) true db0 records).failed = none ∧
    (catalogBatchHandler genId (fun _ => false) true db0 records).db.products.length =
      db0.products.length + records.length ∧
    (catalogBatchHandler genId (fun _ => false) true db0 records).db.stocks.length =
      db0.stocks.length + records.length ∧
    (catalogBatchHandler genId (fun _ => false) true db0 records).created.length =
      records.length ∧
    (catalogBatchHandler genId (fun _ => false) true db0 records).notifications =
      [⟨notificationSubject records.length,
        (catalogBatchHandler genId (fun _ => false) true db0 records).created⟩] ∧
    (records.length = 1 → notificationSubject records.length = "1 New Product Created") ∧
    (1 < records.length → notificationSubject records.length =
        toString records.length ++ " New Products Created") := by
  obtain ⟨db', acc', heq, h1, h2, h3⟩ :=
    runRecords_all_accepted genId records [] 0 db0 [] hall
  rw [List.append_nil] at heq
  have hrun : runRecords genId (fun _ => false) 0 db0 [] records = (db', acc', none) := by
    rw [heq]
    simp only [runRecords]
  have hlen : acc'.length = records.length := by simpa using h3
  have hpos : 0 < acc'.length := by
    rw [hlen]
    exact List.length_pos.mpr hne
  have hsub1 : records.length = 1 →
      notificationSubject records.length = "1 New Product Created" := by
    intro h
    rw [h]
    decide
  have hsub2 : 1 < records.length → notificationSubject records.length =
      toString records.length ++ " New Products Created" := by
    intro h
    simp only [notificationSubject, if_pos h]
    rw [String.append_assoc, String.append_assoc]
    congr 1
  have hpos2 : 0 < records.length := List.length_pos.mpr hne
  refine ⟨?_, ?_, ?_, ?_, ?_, hsub1, hsub2⟩ <;>
    simp [catalogBatchHandler, hrun, hpos, hpos2, sendProductCreatedNotification, hlen, h1, h2]

/-- Closed instance of `batchSuccess`: a batch of two accepted messages
succeeds with one notification listing both, and the subject for two
products is pluralized. -/
theorem batchSuccess_witness :
    (catalogBatchHandler (fun n => toString n) (fun _ => false) true DB.empty
        [SqsBody.json (.obj ⟨.str "A", .str "a", .num (.val 3), .undefined⟩),
         SqsBody.json (.obj ⟨.str "B", .str "b", .num (.val 4), .undefined⟩)]).failed = none ∧
    (catalogBatchHandler (fun n => toString n) (fun _ => false) true DB.empty
        [SqsBody.json (.obj ⟨.str "A", .str "a", .num (.val 3), .undefined⟩),
         SqsBody.json (.obj ⟨.str "B", .str "b", .num (.val 4), .undefined⟩)]).notifications =
      [⟨notificationSubject 2,
        (catalogBatchHandler (fun n => toString n) (fun _ => false) true DB.empty
          [SqsBody.json (.obj ⟨.str "A", .str "a", .num (.val 3), .undefined⟩),
           SqsBody.json (.obj ⟨.str "B", .str "b", .num (.val 4), .undefined⟩)]).created⟩] ∧
    notificationSubject 2 = toString 2 ++ " New Products Created" :=
  ⟨(batchSuccess (fun n => toString n) DB.empty
      [SqsBody.json (.obj ⟨.str "A", .str "a", .num (.val 3), .undefined⟩),
       SqsBody.json (.obj ⟨.str "B", .str "b", .num (.val 4), .undefined⟩)]
      (by decide) (by decide)).1,
   (batchSuccess (fun n => toString n) DB.empty
      [SqsBody.json (.obj ⟨.str "A", .str "a", .num (.val 3), .undefined⟩),
       SqsBody.json (.obj ⟨.str "B", .str "b", .num (.val 4), .undefined⟩)]
      (by decide) (by decide)).2.2.2.2.1,
   (batchSuccess (fun n => toString n) DB.empty
      [SqsBody.json (.obj ⟨.str "A", .str "a", .num (.val 3), .undefined⟩),
       SqsBody.json (.obj ⟨.str "B", .str "b", .num (.val 4), .undefined⟩)]
      (by decide) (by decide)).2.2.2.2.2.2 (by decide)⟩

/-- No segment produced by the split contains the separator (provided the
accumulator does not). -/
theorem splitCharAux_sep_not_mem (sep : Char) :
    ∀ (l acc : List Char), sep ∉ acc →
      ∀ part ∈ splitCharAux sep l acc, sep ∉ part := by
  intro l
  induction l with
  | nil =>
    intro acc hacc part hp
    simp only [splitCharAux, List.mem_singleton] at hp
    subst hp
    simpa using hacc
  | cons c cs ih =>
    intro acc hacc part hp
    by_cases hc : c = sep
    · simp only [splitCharAux, if_pos hc, List.mem_cons] at hp
      rcases hp with hp | hp
      · subst hp
        simpa using hacc
      · exact ih [] (by simp) part hp
    · simp only [splitCharAux, if_neg hc] at hp
      refine ih (c :: acc) ?_ part hp
      intro hmem
      rcases List.mem_cons.mp hmem with h | h
      · exact hc h.symm
      · exact hacc h
  
/-- No part of a JS single-character split contains the separator — in
particular no password segment extracted by the authorizer can contain a
colon. -/
theorem jsSplit_sep_not_mem (sep : Char) (s : String) (part : String)
    (hp : part ∈ jsSplit sep s) : sep ∉ part.toList := by
  simp only [jsSplit, List.mem_map] at hp
  obtain ⟨cs, hcs, rfl⟩ := hp
  exact splitCharAux_sep_not_mem sep s.toList [] (by simp) cs hcs

/-- C6: the authorizer's decision — a known username with the stored
secret yields an Allow policy; a known username with a different
(non-empty) stored secret yields an explicit Deny; an unknown username
yields an explicit Deny; a missing token or one the Basic regex does not
match raises the authentication error, which is an exception and not a
Deny decision. -/
theorem authorizer_decision (credStore : String → Option String)
    (decodeBase64 : String → String) (arn : String) :
    (∀ tok enc u p, basicTokenMatch tok = some enc →
        jsSplit ':' (decodeBase64 enc) = [u, p] → u ≠ "" → p ≠ "" →
        credStore u = some p →
        authorizerHandler credStore decodeBase64 (some tok) arn =
          .ok ⟨u, .allow, arn⟩) ∧
    (∀ tok enc u p stored, basicTokenMatch tok = some enc →
        jsSplit ':' (decodeBase64 enc) = [u, p] → u ≠ "" → p ≠ "" →
        credStore u = some stored → stored ≠ "" → stored ≠ p →
        authorizerHandler credStore decodeBase64 (some tok) arn =
          .ok ⟨u, .deny, arn⟩) ∧
    (∀ tok enc u p, basicTokenMatch tok = some enc →
        jsSplit ':' (decodeBase64 enc) = [u, p] → u ≠ "" → p ≠ "" →
        credStore u = none →
        authorizerHandler credStore decodeBase64 (some tok) arn =
          .ok ⟨u, .deny, arn⟩) ∧
    (authorizerHandler credStore decodeBase64 none arn = .error "Unauthorized" ∧
      ∀ tok, basicTokenMatch tok = none →
        authorizerHandler credStore decodeBase64 (some tok) arn =
          .error "Unauthorized") := by
  refine ⟨?_, ?_, ?_, rfl, ?_⟩
  · intro tok enc u p hm hsp hu hp' hcred
    have htok : tok ≠ "" := by
      intro h
      rw [h, show basicTokenMatch "" = none from by decide] at hm
      exact Option.noConfusion hm
    simp [authorizerHandler, htok, hm, hsp, hu, hp', hcred]
  · intro tok enc u p stored hm hsp hu hp' hcred hst0 hstp
    have htok : tok ≠ "" := by
      intro h
      rw [h, show basicTokenMatch "" = none from by decide] at hm
      exact Option.noConfusion hm
    simp [authorizerHandler, htok, hm, hsp, hu, hp', hcred, hst0, hstp]
  · intro tok enc u p hm hsp hu hp' hcred
    have htok : tok ≠ "" := by
      intro h
      rw [h, show basicTokenMatch "" = none from by decide] at hm
      exact Option.noConfusion hm
    simp [authorizerHandler, htok, hm, hsp, hu, hp', hcred]
  · intro tok hm
    by_cases htok : tok = ""
    · simp [authorizerHandler, htok]
    · simp [authorizerHandler, htok, hm]



/-- C9: the authorizer compares only the segment between the first and
second colon of the decoded credentials, so a user whose configured
secret contains a colon can never obtain an Allow decision from any
token; and a decoded pair with an empty username or empty password raises
the authentication error rather than producing a Deny. -/
theorem authorizer_colon_secret (credStore : String → Option String)
    (decodeBase64 : String → String) (arn : String) :
    (∀ (tok : Option String) (u stored : String), credStore u = some stored →
        ':' ∈ stored.toList →
        authorizerHandler credStore decodeBase64 tok arn ≠ .ok ⟨u, .allow, arn⟩) ∧
    (∀ (t enc u p : String) (rest : List String), basicTokenMatch t = some enc →
        jsSplit ':' (decodeBase64 enc) = u :: p :: rest → (u = "" ∨ p = "") →
        authorizerHandler credStore decodeBase64 (some t) arn =
          .error "Unauthorized") := by
  constructor
  · intro tok u stored hcred hcolon hcontra
    cases tok with
    | none => simp [authorizerHandler] at hcontra
    | some t =>
      by_cases ht : t = ""
      · simp [authorizerHandler, ht] at hcontra
      · cases hm : basicTokenMatch t with
        | none => simp [authorizerHandler, ht, hm] at hcontra
        | some enc =>
          cases hsp : jsSplit ':' (decodeBase64 enc) with
          | nil => simp [authorizerHandler, ht, hm, hsp] at hcontra
          | cons u1 tl =>
            cases tl with
            | nil => simp [authorizerHandler, ht, hm, hsp] at hcontra
            | cons p1 rest =>
              by_cases hup : u1 = "" ∨ p1 = ""
              · simp [authorizerHandler, ht, hm, hsp, hup] at hcontra
              · cases hcs : credStore u1 with
                | none => simp [authorizerHandler, ht, hm, hsp, hup, hcs] at hcontra
                | some st =>
                  by_cases hst0 : st = ""
                  · simp [authorizerHandler, ht, hm, hsp, hup, hcs, hst0] at hcontra
                  · by_cases hstp : st = p1
                    · have hps : ':' ∉ p1.toList :=
                        jsSplit_sep_not_mem ':' (decodeBase64 enc) p1
                          (by rw [hsp]; simp)
                      have hp1 : ¬ p1 = "" := fun h => hup (Or.inr h)
                      have hu0 : ¬ u1 = "" := fun h => hup (Or.inl h)
                      simp [authorizerHandler, ht, hm, hsp, hup, hcs, hst0, hstp, hp1, hu0]
                        at hcontra
                      have hcs2 : credStore u = some st := by
                        first
                          | rw [hcontra] at hcs; exact hcs
                          | rw [← hcontra] at hcs; exact hcs
                      have h1 : stored = st := Option.some_inj.mp (hcred.symm.trans hcs2)
                      rw [h1, hstp] at hcolon
                      exact hps hcolon
                    · simp [authorizerHandler, ht, hm, hsp, hup, hcs, hst0, hstp] at hcontra
  · intro t enc u p rest hm hsp hup
    have htok : t ≠ "" := by
      intro h
      rw [h, show basicTokenMatch "" = none from by decide] at hm
      exact Option.noConfusion hm
    simp [authorizerHandler, htok, hm, hsp, hup]



/-- Closed instance of `authorizer_decision`: all four decision outcomes
at a concrete credential store and decoder. -/
theorem authorizer_decision_witness :
    authorizerHandler
        (fun u => if u = "alice" then some "wonder" else none)
        (fun e => if e = "QQ" then "alice:wonder"
          else if e = "WW" then "alice:wrong" else "carol:pw")
        (some "Basic QQ") "arn:aws:res" = .ok ⟨"alice", .allow, "arn:aws:res"⟩ ∧
    authorizerHandler
        (fun u => if u = "alice" then some "wonder" else none)
        (fun e => if e = "QQ" then "alice:wonder"
          else if e = "WW" then "alice:wrong" else "carol:pw")
        (some "Basic WW") "arn:aws:res" = .ok ⟨"alice", .deny, "arn:aws:res"⟩ ∧
    authorizerHandler
        (fun u => if u = "alice" then some "wonder" else none)
        (fun e => if e = "QQ" then "alice:wonder"
          else if e = "WW" then "alice:wrong" else "carol:pw")
        (some "Basic EE") "arn:aws:res" = .ok ⟨"carol", .deny, "arn:aws:res"⟩ ∧
    authorizerHandler
        (fun u => if u = "alice" then some "wonder" else none)
        (fun e => if e = "QQ" then "alice:wonder"
          else if e = "WW" then "alice:wrong" else "carol:pw")
        none "arn:aws:res" = .error "Unauthorized" ∧
    authorizerHandler
        (fun u => if u = "alice" then some "wonder" else none)
        (fun e => if e = "QQ" then "alice:wonder"
          else if e = "WW" then "alice:wrong" else "carol:pw")
        (some "Token QQ") "arn:aws:res" = .error "Unauthorized" :=
  ⟨(authorizer_decision _ _ _).1 "Basic QQ" "QQ" "alice" "wonder"
      (by decide) (by decide) (by decide) (by decide) (by decide),
   (authorizer_decision _ _ _).2.1 "Basic WW" "WW" "alice" "wrong" "wonder"
      (by decide) (by decide) (by decide) (by decide) (by decide) (by decide) (by decide),
   (authorizer_decision _ _ _).2.2.1 "Basic EE" "EE" "carol" "pw"
      (by decide) (by decide) (by decide) (by decide) (by decide),
   (authorizer_decision _ _ _).2.2.2.1,
   (authorizer_decision _ _ _).2.2.2.2 "Token QQ" (by decide)⟩

/-- Every successful parse of the consumer carries the trimmed title and
description, whatever the price and count fields were. -/
theorem parse_ok_trims (t d : String) (pf cf : FieldVal) (msg : ProductMessage)
    (h : parseProductData (.obj ⟨.str t, .str d, pf, cf⟩) = .ok msg) :
    msg.title = strTrim t ∧ msg.description = strTrim d := by
  simp only [parseProductData] at h
  repeat' split at h
  all_goals
    first
      | (injection h with h2; subst h2; exact ⟨rfl, rfl⟩)
      | injection h

/-- C10: the queue consumer persists and notifies the trimmed title and
persists the trimmed description, while the direct Create handler stores
title and description exactly as supplied. -/
theorem trimming_behavior :
    (∀ (t d : String) (pf cf : FieldVal) (msg : ProductMessage),
        parseProductData (.obj ⟨.str t, .str d, pf, cf⟩) = .ok msg →
        msg.title = strTrim t ∧ msg.description = strTrim d) ∧
    (∀ (pid : String) (db : DB) (t d : String) (pf cf : FieldVal) (db2 : DB)
        (cp : CreatedProduct),
        processRecord pid false db (.json (.obj ⟨.str t, .str d, pf, cf⟩)) = .ok (db2, cp) →
        (∃ q c, db2.products = db.products ++ [⟨pid, strTrim t, strTrim d, q⟩] ∧
            db2.stocks = db.stocks ++ [⟨pid, c⟩]) ∧ cp.title = strTrim t) ∧
    (∀ (pid : String) (db : DB) (t d : String) (pf cf : FieldVal),
        isValidProductData (.obj ⟨.str t, .str d, pf, cf⟩) = true →
        ∃ q c, createProductHandler pid false false db (.obj ⟨.str t, .str d, pf, cf⟩) =
          ⟨201, ⟨db.products ++ [⟨pid, t, d, q⟩], db.stocks ++ [⟨pid, c⟩]⟩,
            some (⟨pid, t, d, q⟩, c)⟩) := by
  refine ⟨parse_ok_trims, ?_, ?_⟩
  · intro pid db t d pf cf db2 cp h
    cases hp : parseProductData (.obj ⟨.str t, .str d, pf, cf⟩) with
    | error e => simp [processRecord, hp] at h
    | ok m =>
      obtain ⟨ht, hd⟩ := parse_ok_trims t d pf cf m hp
      simp only [processRecord, hp, Bool.false_eq_true, if_false, Except.ok.injEq,
        Prod.mk.injEq] at h
      obtain ⟨hdb, hcp⟩ := h
      subst hdb
      subst hcp
      exact ⟨⟨m.price, countOrZero m.count, by simp [ht, hd], by simp⟩, by simp [ht]⟩
  · intro pid db t d pf cf hv
    simp only [createProductHandler, hv, Bool.not_true, Bool.false_eq_true, if_false]
    exact ⟨_, _, rfl⟩

/-- Closed instance of `trimming_behavior`: the consumer's parse of
a padded title/description yields the trimmed strings, and the Create
handler writes the padded strings unchanged. -/
theorem trimming_behavior_witness :
    ((⟨"Pixel", "desc", (10 : ℚ), none⟩ : ProductMessage).title = strTrim "  Pixel " ∧
      (⟨"Pixel", "desc", (10 : ℚ), none⟩ : ProductMessage).description = strTrim " desc ") ∧
    ∃ q c, createProductHandler "p1" false false DB.empty
        (.obj ⟨.str "  Pixel ", .str " desc ", .num (.val 10), .undefined⟩) =
      ⟨201, ⟨DB.empty.products ++ [⟨"p1", "  Pixel ", " desc ", q⟩],
            DB.empty.stocks ++ [⟨"p1", c⟩]⟩,
        some (⟨"p1", "  Pixel ", " desc ", q⟩, c)⟩ :=
  ⟨trimming_behavior.1 "  Pixel " " desc " (.num (.val 10)) .undefined
      ⟨"Pixel", "desc", 10, none⟩ (by decide),
   trimming_behavior.2.2 "p1" DB.empty "  Pixel " " desc " (.num (.val 10)) .undefined
      (by decide)⟩

/-- Closed instance of `authorizer_colon_secret`: a colon-containing
stored secret never allows, and an empty decoded username raises. -/
theorem authorizer_colon_secret_witness :
    authorizerHandler (fun u => if u = "alice" then some "a:b" else none)
        (fun _ => "alice:a") (some "Basic QQ") "arn:aws:res" ≠
      .ok ⟨"alice", .allow, "arn:aws:res"⟩ ∧
    authorizerHandler (fun u => if u = "alice" then some "a:b" else none)
        (fun _ => ":pw") (some "Basic QQ") "arn:aws:res" = .error "Unauthorized" :=
  ⟨(authorizer_colon_secret (fun u => if u = "alice" then some "a:b" else none)
      (fun _ => "alice:a") "arn:aws:res").1 (some "Basic QQ") "alice" "a:b"
      (by decide) (by decide),
   (authorizer_colon_secret (fun u => if u = "alice" then some "a:b" else none)
      (fun _ => ":pw") "arn:aws:res").2 "Basic QQ" "QQ" "" "pw" []
      (by decide) (by decide) (Or.inl rfl)⟩

end ShopBackend
